import Mathlib

/-!
Verification of the polypaz backend learning logic against its
natural-language specification.  The definitions below are shallow
embeddings of the Python source: `learning/views.py`
(placement-test scoring, answer evaluation), `learning/models.py`
(module checkpoint, gamification streak, task-attempt save,
placement-result save) and `utils/gemini_service.py` (AI gateway).
Machine integers are modelled as Int/Nat, Decimal and float values as
rationals, Python dicts as association lists, and dates as integer day
numbers.
-/

/-- CEFR proficiency bands, in ascending order (the CharField choices
A0..C2 of the source). -/
inductive Cefr
  | A0 | A1 | A2 | B1 | B2 | C1 | C2
deriving DecidableEq

/-- Numeric position of a band in the ascending CEFR scale. -/
def Cefr.rank : Cefr → Nat
  | .A0 => 0
  | .A1 => 1
  | .A2 => 2
  | .B1 => 3
  | .B2 => 4
  | .C1 => 5
  | .C2 => 6

/-- Embedding of `PlacementTestSubmitView._percentage_to_cefr`
(learning/views.py): cascade of inclusive upper bounds. -/
def percentage_to_cefr (percentage : ℚ) : Cefr :=
  if percentage ≤ 20 then .A0
  else if percentage ≤ 35 then .A1
  else if percentage ≤ 50 then .A2
  else if percentage ≤ 65 then .B1
  else if percentage ≤ 80 then .B2
  else if percentage ≤ 90 then .C1
  else .C2

/-- The whitespace characters stripped by Python str.strip() (ASCII
range). -/
def pyIsSpace (c : Char) : Bool :=
  c = ' ' || c = '\t' || c = '\n' || c = '\r' || c = '\x0b' || c = '\x0c'

/-- Strip leading and trailing whitespace from a character list. -/
def stripChars (l : List Char) : List Char :=
  ((l.dropWhile pyIsSpace).reverse.dropWhile pyIsSpace).reverse

/-- Model of Python str.strip(). -/
def pyStrip (s : String) : String := String.mk (stripChars s.data)

/-- Model of Python str.lower() (ASCII case mapping). -/
def pyLower (s : String) : String := String.mk (s.data.map Char.toLower)

/-- A placement test item as used by the scoring loop: the string id it
is looked up under in the answers JSON object, its `item_type` tag, its
`correct_answer` CharField and its `difficulty_weight` DecimalField
(modelled as a rational). -/
structure PlacementItem where
  id : String
  item_type : String
  correct_answer : String
  difficulty_weight : ℚ
deriving DecidableEq

/-- Python answers.get with the stringified item id as key and the
empty string as default, the dict modelled as an association list. -/
def answersGet (answers : List (String × String)) (key : String) : String :=
  match answers.find? (fun kv => kv.1 == key) with
  | some kv => kv.2
  | none => ""

/-- Embedding of `PlacementTestSubmitView._validate_answer`
(learning/views.py).  Both arguments arrive already stripped and
lower-cased; an empty user answer is rejected up front, and all three
item types compare for string equality. -/
def validate_answer (user_answer correct_answer item_type : String) : Bool :=
  if user_answer = "" then false
  else if item_type = "multiple_choice" then user_answer == correct_answer
  else if item_type = "cloze" then user_answer == correct_answer
  else if item_type = "translation" then user_answer == correct_answer
  else false

/-- One placement item is accepted when the placement validator accepts
the stripped, lower-cased user answer (missing key yields the empty
string) against the stripped, lower-cased correct answer. -/
def itemAccepted (answers : List (String × String)) (item : PlacementItem) : Bool :=
  validate_answer (pyLower (pyStrip (answersGet answers item.id)))
    (pyLower (pyStrip item.correct_answer)) item.item_type

/-- One iteration of the scoring loop of
`PlacementTestSubmitView._calculate_results`: the accumulator is the
pair (score, max_score); every item adds its weight to max_score, and
adds it to score iff the validator accepts the answer. -/
def scoreStep (answers : List (String × String)) (acc : ℚ × ℚ)
    (item : PlacementItem) : ℚ × ℚ :=
  (if itemAccepted answers item then acc.1 + item.difficulty_weight else acc.1,
   acc.2 + item.difficulty_weight)

/-- Embedding of `PlacementTestSubmitView._calculate_results`
(learning/views.py), returning (score, max_score, percentage, band).
The percentage is `score / max_score * 100` when max_score > 0 and 0
otherwise, and the band is obtained from `percentage_to_cefr`. -/
def calculate_results (items : List PlacementItem)
    (answers : List (String × String)) : ℚ × ℚ × ℚ × Cefr :=
  let sm := items.foldl (scoreStep answers) (0, 0)
  let percentage := if 0 < sm.2 then sm.1 / sm.2 * 100 else 0
  (sm.1, sm.2, percentage, percentage_to_cefr percentage)

/-- Sum of all difficulty weights of a list of items. -/
def totalWeight (items : List PlacementItem) : ℚ :=
  (items.map PlacementItem.difficulty_weight).sum

/-- Sum of the difficulty weights of the accepted items only. -/
def acceptedWeight (answers : List (String × String))
    (items : List PlacementItem) : ℚ :=
  ((items.filter (itemAccepted answers)).map PlacementItem.difficulty_weight).sum

/-- The re.sub punctuation removal from the fill_blank branch of
`TaskAttemptView._evaluate_answer`: keep word characters (alphanumeric
or underscore) and whitespace, remove everything else. -/
def removePunct (s : String) : String :=
  String.mk (s.data.filter (fun c => c.isAlphanum || c = '_' || pyIsSpace c))

/-- Length of the longest common prefix of two character lists. -/
def commonPrefixLen : List Char → List Char → Nat
  | a :: as, b :: bs => if a = b then commonPrefixLen as bs + 1 else 0
  | _, _ => 0

/-- The longest contiguous matching block of two character lists, as
found by difflib.SequenceMatcher.find_longest_match without junk:
the triple (i, j, size) with maximal size, ties resolved towards the
smallest start in the first list, then in the second. -/
def longestMatch (a b : List Char) : Nat × Nat × Nat :=
  (List.range a.length).foldl
    (fun best i =>
      (List.range b.length).foldl
        (fun best2 j =>
          let k := commonPrefixLen (a.drop i) (b.drop j)
          if best2.2.2 < k then (i, j, k) else best2)
        best)
    (0, 0, 0)

/-- Total size of the matching-block decomposition computed by
difflib.SequenceMatcher.get_matching_blocks: recursively take the
longest matching block and recurse on the pieces to its left and
right.  The fuel argument strictly bounds the recursion depth; it is
instantiated with a sufficient value in `similarity`. -/
def matchTotalAux : Nat → List Char → List Char → Nat
  | 0, _, _ => 0
  | fuel + 1, a, b =>
    let m := longestMatch a b
    if m.2.2 = 0 then 0
    else
      m.2.2 + matchTotalAux fuel (a.take m.1) (b.take m.2.1)
        + matchTotalAux fuel (a.drop (m.1 + m.2.2)) (b.drop (m.2.1 + m.2.2))

/-- Model of difflib.SequenceMatcher(None, ua, ca).ratio() used by the
translation branch of `TaskAttemptView._evaluate_answer`: twice the
total matched size over the total length, and 1 when both strings are
empty. -/
def similarity (ua ca : String) : ℚ :=
  let a := ua.data
  let b := ca.data
  if a.length + b.length = 0 then 1
  else 2 * (matchTotalAux (a.length + b.length) a b : ℚ) / (a.length + b.length)

/-- Embedding of `TaskAttemptView._evaluate_answer` (learning/views.py).
Both strings are lower-cased and stripped first; multiple_choice
compares for equality, fill_blank removes punctuation from both sides
before comparing, translation accepts a similarity ratio of at least
0.8, and any other task type evaluates to false.  Unlike the placement
validator there is no empty-answer guard. -/
def evaluate_answer (user_answer correct_answer task_type : String) : Bool :=
  let ua := pyStrip (pyLower user_answer)
  let ca := pyStrip (pyLower correct_answer)
  if task_type = "multiple_choice" then ua == ca
  else if task_type = "fill_blank" then removePunct ua == removePunct ca
  else if task_type = "translation" then decide ((8 : ℚ) / 10 ≤ similarity ua ca)
  else false

/-- The gamification profile fields touched by the embedded operations
(learning/models.py `GamificationProfile`): total XP, current and
longest streak counters, and the last activity date as an optional
integer day number. -/
structure GamificationProfile where
  total_xp : ℤ
  current_streak_days : ℤ
  longest_streak_days : ℤ
  last_activity_date : Option ℤ
deriving DecidableEq

/-- Embedding of `GamificationProfile.update_streak`
(learning/models.py).  Dates are integer day numbers, so the Python
`(activity_date - self.last_activity_date).days` is plain integer
subtraction. -/
def update_streak (p : GamificationProfile) (activity_date : ℤ) :
    GamificationProfile :=
  match p.last_activity_date with
  | none =>
    { p with
      current_streak_days := 1
      longest_streak_days := 1
      last_activity_date := some activity_date }
  | some last =>
    let days_diff := activity_date - last
    if days_diff = 0 then
      { p with last_activity_date := some activity_date }
    else if days_diff = 1 then
      let cur := p.current_streak_days + 1
      { p with
        current_streak_days := cur
        longest_streak_days :=
          if p.longest_streak_days < cur then cur else p.longest_streak_days
        last_activity_date := some activity_date }
    else
      { p with
        current_streak_days := 1
        last_activity_date := some activity_date }

/-- The module completion state mutated by `Module.check_completion`:
the completion flag and the completion timestamp. -/
structure ModuleState where
  is_completed : Bool
  completed_at : Option ℤ
deriving DecidableEq

/-- The aggregate statistics `Module.check_completion` reads from the
database: whether the module has any task templates at all
(`tasks.exists()`), the number of the users completed task instances,
and the users correct and total attempt counts in the module. -/
structure ModuleStats where
  has_tasks : Bool
  completed_tasks : ℕ
  correct_count : ℕ
  total_attempts : ℕ
deriving DecidableEq

/-- Python `criteria.get(key, default)` on the checkpoint-criteria JSON
object, modelled as an association list of numeric entries. -/
def critGet (criteria : List (String × ℚ)) (key : String) (dflt : ℚ) : ℚ :=
  match criteria.find? (fun kv => kv.1 == key) with
  | some kv => kv.2
  | none => dflt

/-- Presence lookup in the criteria object. -/
def critLookup (criteria : List (String × ℚ)) (key : String) : Option ℚ :=
  (criteria.find? (fun kv => kv.1 == key)).map (fun kv => kv.2)

/-- The accuracy computed by `Module.check_completion`:
correct / total * 100 when there are attempts, 0 otherwise. -/
def module_accuracy (st : ModuleStats) : ℚ :=
  if 0 < st.total_attempts then
    (st.correct_count : ℚ) / (st.total_attempts : ℚ) * 100
  else 0

/-- Embedding of `Module.check_completion` (learning/models.py),
returning the boolean result together with the updated module state.
Empty criteria and a module without tasks return false immediately;
otherwise the thresholds are read with defaults 85 and 10, and on
success the completion flag and timestamp are stamped only if the
module was not already completed. -/
def check_completion (m : ModuleState) (criteria : List (String × ℚ))
    (st : ModuleStats) (now : ℤ) : Bool × ModuleState :=
  if criteria = [] then (false, m)
  else if st.has_tasks = false then (false, m)
  else
    let accuracy := module_accuracy st
    let min_accuracy := critGet criteria "accuracy_threshold" 85 * 100
    let min_tasks := critGet criteria "min_tasks_completed" 10
    if min_tasks ≤ (st.completed_tasks : ℚ) ∧ min_accuracy ≤ accuracy then
      if m.is_completed = false then
        (true, { is_completed := true, completed_at := some now })
      else (true, m)
    else (false, m)

/-- The fields of a `TaskAttempt` row read and written by its save
method. -/
structure TaskAttemptRec where
  is_correct : Bool
  xp_gained : ℤ
deriving DecidableEq

/-- The fields of the owning `TaskInstance` mutated by
`TaskAttempt.save`. -/
structure TaskInstanceRec where
  status : String
  attempts_count : ℤ
  best_attempt_correct : Bool
deriving DecidableEq

/-- The state acted on by `TaskAttempt.save`: the attempt row, its task
instance and the owning users gamification profile. -/
structure AttemptCtx where
  attempt : TaskAttemptRec
  inst : TaskInstanceRec
  profile : GamificationProfile
deriving DecidableEq

/-- Embedding of `TaskAttempt.save` (learning/models.py), with `d` the
difficulty_level of the templates task.  XP is computed only when the
attempt is correct and xp_gained is still 0; every call increments the
instances attempts_count, rewrites its status, and for a correct
attempt adds xp_gained to the profiles total XP. -/
def TaskAttempt_save (d : ℤ) (s : AttemptCtx) : AttemptCtx :=
  let a :=
    if s.attempt.is_correct = true ∧ s.attempt.xp_gained = 0 then
      { s.attempt with xp_gained := 10 * d }
    else s.attempt
  let i := { s.inst with attempts_count := s.inst.attempts_count + 1 }
  let i :=
    if a.is_correct = true then
      { i with best_attempt_correct := true, status := "completed" }
    else { i with status := "in_progress" }
  let p :=
    if a.is_correct = true then
      { s.profile with total_xp := s.profile.total_xp + a.xp_gained }
    else s.profile
  ⟨a, i, p⟩

/-- n further calls of `TaskAttempt.save` on the same state. -/
def saveIter (d : ℤ) : ℕ → AttemptCtx → AttemptCtx
  | 0, s => s
  | n + 1, s => saveIter d n (TaskAttempt_save d s)

/-- The user-profile fields relevant to the placement-result side
effect (accounts/models.py `UserProfile`). -/
structure UserProfileState where
  target_language : String
  native_language : String
  current_cefr_level : Cefr
  learning_preferences : List (String × String)
deriving DecidableEq

/-- A `PlacementTestResult` row together with the language of its test
(learning/models.py). -/
structure PlacementTestResultRec where
  test_language : String
  score : ℚ
  max_score : ℚ
  percentage : ℚ
  estimated_cefr_level : Cefr
deriving DecidableEq

/-- Embedding of `PlacementTestResult.save` (learning/models.py): the
percentage is recomputed from score and max_score when max_score > 0,
the row is persisted, and then the submitting users profile level is
overwritten with the estimated band iff the profiles target language
equals the tests language. -/
def PlacementTestResult_save (r : PlacementTestResultRec)
    (profile : UserProfileState) : PlacementTestResultRec × UserProfileState :=
  let r2 :=
    if 0 < r.max_score then { r with percentage := r.score / r.max_score * 100 }
    else r
  let profile2 :=
    if profile.target_language = r2.test_language then
      { profile with current_cefr_level := r2.estimated_cefr_level }
    else profile
  (r2, profile2)

/-- JSON values, as produced by Python json.loads. -/
inductive Json
  | null
  | bool (b : Bool)
  | num (q : ℚ)
  | str (s : String)
  | arr (xs : List Json)
  | obj (kvs : List (String × Json))

/-- The one Python exception relevant here: the TypeError raised by a
membership test on a type that supports none. -/
inductive PyErr
  | typeError
deriving DecidableEq

/-- Python equality between a JSON value and a string key, as used by
`key in list` membership: only a string element can equal the key. -/
def jsonEqStr (j : Json) (key : String) : Bool :=
  match j with
  | .str s => s == key
  | _ => false

/-- Python `key in data` for a JSON value: key lookup on objects,
element equality on arrays, substring test on strings; on null,
booleans and numbers it raises TypeError. -/
def pyIn (key : String) : Json → Except PyErr Bool
  | .obj kvs => .ok (kvs.any (fun kv => kv.1 == key))
  | .arr xs => .ok (xs.any (fun x => jsonEqStr x key))
  | .str s => .ok (decide (key.data <:+: s.data))
  | _ => .error .typeError

/-- Embedding of `GeminiService._validate_schema`
(utils/gemini_service.py) for a schema of the form present in the
source, a dict whose key "required" holds a list of key names: walk
the required keys, return false at the first key whose membership test
fails, true otherwise; the membership test itself may raise. -/
def validate_schema (data : Json) : List String → Except PyErr Bool
  | [] => .ok true
  | key :: rest => do
    let present ← pyIn key data
    if present then validate_schema data rest else pure false

/-- The markdown-fence extraction of `GeminiService.generate_json`:
strip the whole text, drop a leading fence tagged json, drop a leading
bare fence, drop a trailing fence, then strip again before parsing. -/
def strip_fences (s : String) : String :=
  let t := stripChars s.data
  let t := if "```json".data.isPrefixOf t then t.drop 7 else t
  let t := if "```".data.isPrefixOf t then t.drop 3 else t
  let t := if "```".data.isSuffixOf t then t.take (t.length - 3) else t
  String.mk (stripChars t)

/-- Embedding of `GeminiService.generate_content`
(utils/gemini_service.py).  `configured` models a present API key,
`cached` the value the cache holds for the prompt (None on a miss, and
a cached empty string is falsy exactly like a miss), and `aiResult`
the outcome of the underlying provider call; any provider failure is
caught and turned into None. -/
def generate_content (configured use_cache : Bool) (cached : Option String)
    (aiResult : Except Unit String) : Option String :=
  if configured = false then none
  else
    let hit := if use_cache then cached.getD "" else ""
    if hit ≠ "" then some hit
    else
      match aiResult with
      | .ok t => some t
      | .error _ => none

/-- Embedding of `GeminiService.generate_json`
(utils/gemini_service.py).  `parse` models json.loads, returning none
exactly when loads would raise json.JSONDecodeError (the only
exception the source catches).  A falsy response yields None, the
fences are stripped, a parse failure yields None, and a supplied
required-keys schema filters the result through `validate_schema`,
whose TypeError propagates to the caller. -/
def generate_json (configured use_cache : Bool) (cached : Option String)
    (aiResult : Except Unit String) (parse : String → Option Json)
    (schema : Option (List String)) : Except PyErr (Option Json) :=
  match generate_content configured use_cache cached aiResult with
  | none => .ok none
  | some t =>
    if t = "" then .ok none
    else
      match parse (strip_fences t) with
      | none => .ok none
      | some result =>
        match schema with
        | none => .ok (some result)
        | some req => do
          let ok ← validate_schema result req
          pure (if ok then some result else none)

/-- C1: the percentage-to-CEFR band function is non-decreasing in the
percentage and uses inclusive upper bounds: p ≤ 20 maps to A0,
20 < p ≤ 35 to A1, 35 < p ≤ 50 to A2, 50 < p ≤ 65 to B1,
65 < p ≤ 80 to B2, 80 < p ≤ 90 to C1 and everything above 90 to C2;
in particular the band of 20.00 is A0 and the band of 20.01 is A1. -/
theorem C1_percentage_to_cefr_monotone_bounds (p q : ℚ) (hpq : p ≤ q) :
    (percentage_to_cefr p).rank ≤ (percentage_to_cefr q).rank ∧
    (p ≤ 20 → percentage_to_cefr p = Cefr.A0) ∧
    (20 < p → p ≤ 35 → percentage_to_cefr p = Cefr.A1) ∧
    (35 < p → p ≤ 50 → percentage_to_cefr p = Cefr.A2) ∧
    (50 < p → p ≤ 65 → percentage_to_cefr p = Cefr.B1) ∧
    (65 < p → p ≤ 80 → percentage_to_cefr p = Cefr.B2) ∧
    (80 < p → p ≤ 90 → percentage_to_cefr p = Cefr.C1) ∧
    (90 < p → percentage_to_cefr p = Cefr.C2) ∧
    percentage_to_cefr 20 = Cefr.A0 ∧
    percentage_to_cefr (2001 / 100) = Cefr.A1 := by
  refine ⟨?_, ?_, ?_, ?_, ?_, ?_, ?_, ?_, ?_, ?_⟩
  · unfold percentage_to_cefr
    split_ifs <;> simp only [Cefr.rank] <;> first | omega | (exfalso; linarith)
  all_goals unfold percentage_to_cefr
  all_goals intros
  all_goals split_ifs <;> first | rfl | (exfalso; linarith)

/-- Concrete check of C1 at p = 10, q = 95. -/
theorem C1_percentage_to_cefr_monotone_bounds_witness :
    (percentage_to_cefr 10).rank ≤ (percentage_to_cefr 95).rank ∧
    percentage_to_cefr 10 = Cefr.A0 ∧
    percentage_to_cefr 20 = Cefr.A0 ∧
    percentage_to_cefr (2001 / 100) = Cefr.A1 := by
  have h := C1_percentage_to_cefr_monotone_bounds 10 95 (by norm_num)
  exact ⟨h.1, h.2.1 (by norm_num), h.2.2.2.2.2.2.2.2.1, h.2.2.2.2.2.2.2.2.2⟩

/-- Unfolding the scoring loop: starting from any accumulator, the fold
adds the accepted weight to the score component and the total weight to
the max_score component. -/
theorem foldl_scoreStep (answers : List (String × String)) :
    ∀ (items : List PlacementItem) (s0 m0 : ℚ),
      items.foldl (scoreStep answers) (s0, m0) =
        (s0 + acceptedWeight answers items, m0 + totalWeight items) := by
  intro items
  induction items with
  | nil => intro s0 m0; simp [acceptedWeight, totalWeight]
  | cons it rest ih =>
    intro s0 m0
    simp only [List.foldl_cons, scoreStep]
    by_cases h : itemAccepted answers it
    · rw [if_pos h, ih]
      simp only [acceptedWeight, totalWeight, List.filter_cons, h, List.map_cons,
        List.sum_cons, ite_true]
      simp only [Prod.mk.injEq]
      constructor <;> ring
    · rw [if_neg h, ih]
      simp only [acceptedWeight, totalWeight, List.filter_cons, h, List.map_cons,
        List.sum_cons, Bool.false_eq_true, ite_false]
      simp only [Prod.mk.injEq]
      constructor <;> ring

/-- With nonnegative weights the accepted weight is between 0 and the
total weight. -/
theorem acceptedWeight_bounds (answers : List (String × String)) :
    ∀ items : List PlacementItem,
      (∀ it ∈ items, 0 ≤ it.difficulty_weight) →
      0 ≤ acceptedWeight answers items ∧
        acceptedWeight answers items ≤ totalWeight items := by
  intro items
  induction items with
  | nil => intro _; simp [acceptedWeight, totalWeight]
  | cons it rest ih =>
    intro h
    have hit : 0 ≤ it.difficulty_weight := h it (List.mem_cons_self it rest)
    have hrest := ih (fun x hx => h x (List.mem_cons_of_mem it hx))
    by_cases hacc : itemAccepted answers it
    · simp only [acceptedWeight, totalWeight, List.filter_cons, hacc, ite_true,
        List.map_cons, List.sum_cons] at *
      constructor <;> linarith [hrest.1, hrest.2]
    · simp only [acceptedWeight, totalWeight, List.filter_cons, hacc,
        Bool.false_eq_true, ite_false, List.map_cons, List.sum_cons] at *
      constructor <;> linarith [hrest.1, hrest.2]

/-- With an empty answers map no item is accepted. -/
theorem itemAccepted_nil (it : PlacementItem) : itemAccepted [] it = false := by
  rfl

/-- With an empty answers map the accepted weight is zero. -/
theorem acceptedWeight_nil :
    ∀ items : List PlacementItem, acceptedWeight [] items = 0 := by
  intro items
  induction items with
  | nil => rfl
  | cons it rest ih =>
    simp [acceptedWeight, List.filter_cons, itemAccepted_nil] at *
    exact ih

/-- C2 (amended: every item weight nonnegative): for item lists of
total weight W > 0, placement scoring returns max_score = W, a score
equal to the summed weight of exactly the items the placement validator
accepts (a missing key is looked up as the empty string), satisfying
0 ≤ score ≤ W, and percentage = score / W * 100 exactly; with an empty
answer map it yields score 0, percentage 0 and band A0. -/
theorem C2_calculate_results_spec (items : List PlacementItem)
    (answers : List (String × String))
    (hw : ∀ it ∈ items, 0 ≤ it.difficulty_weight)
    (hpos : 0 < totalWeight items) :
    (calculate_results items answers).2.1 = totalWeight items ∧
    (calculate_results items answers).1 = acceptedWeight answers items ∧
    0 ≤ (calculate_results items answers).1 ∧
    (calculate_results items answers).1 ≤ (calculate_results items answers).2.1 ∧
    (calculate_results items answers).2.2.1 =
      (calculate_results items answers).1 / totalWeight items * 100 ∧
    (calculate_results items []).1 = 0 ∧
    (calculate_results items []).2.2.1 = 0 ∧
    (calculate_results items []).2.2.2 = Cefr.A0 := by
  have hfold := foldl_scoreStep answers items 0 0
  have hfold0 := foldl_scoreStep [] items 0 0
  have hbounds := acceptedWeight_bounds answers items hw
  have hnil := acceptedWeight_nil items
  have hc : calculate_results items answers =
      (acceptedWeight answers items, totalWeight items,
        if 0 < totalWeight items then
          acceptedWeight answers items / totalWeight items * 100
        else 0,
        percentage_to_cefr
          (if 0 < totalWeight items then
            acceptedWeight answers items / totalWeight items * 100
          else 0)) := by
    simp only [calculate_results, hfold, zero_add]
  have hc0 : calculate_results items [] =
      (0, totalWeight items,
        if 0 < totalWeight items then 0 / totalWeight items * 100 else 0,
        percentage_to_cefr
          (if 0 < totalWeight items then 0 / totalWeight items * 100 else 0)) := by
    simp only [calculate_results, hfold0, hnil, zero_add]
  have hzero : (if 0 < totalWeight items then 0 / totalWeight items * 100 else 0)
      = (0 : ℚ) := by simp
  rw [hc, hc0, hzero]
  refine ⟨rfl, rfl, hbounds.1, hbounds.2, ?_, rfl, rfl, ?_⟩
  · rw [if_pos hpos]
  · show percentage_to_cefr 0 = Cefr.A0
    norm_num [percentage_to_cefr]

/-- Concrete check of C2 on a single unit-weight item answered
correctly. -/
theorem C2_calculate_results_spec_witness :
    (calculate_results [⟨"1", "multiple_choice", "a", 1⟩] [("1", "a")]).1 = 1 ∧
    (calculate_results [⟨"1", "multiple_choice", "a", 1⟩] [("1", "a")]).2.1 = 1 ∧
    (calculate_results [⟨"1", "multiple_choice", "a", 1⟩] [("1", "a")]).2.2.1 =
      (calculate_results [⟨"1", "multiple_choice", "a", 1⟩] [("1", "a")]).1 / 1 * 100 ∧
    (calculate_results [⟨"1", "multiple_choice", "a", 1⟩] []).2.2.2 = Cefr.A0 := by
  have h := C2_calculate_results_spec [⟨"1", "multiple_choice", "a", 1⟩]
    [("1", "a")] (by intro it hit; simp at hit; rw [hit]; norm_num)
    (by norm_num [totalWeight])
  have hW : totalWeight [⟨"1", "multiple_choice", "a", (1 : ℚ)⟩] = 1 := by
    simp [totalWeight]
  have hia : itemAccepted [("1", "a")]
      (⟨"1", "multiple_choice", "a", (1 : ℚ)⟩ : PlacementItem) = true := rfl
  have hacc : acceptedWeight [("1", "a")]
      [⟨"1", "multiple_choice", "a", (1 : ℚ)⟩] = 1 := by
    simp [acceptedWeight, List.filter_cons, hia]
  refine ⟨?_, ?_, ?_, h.2.2.2.2.2.2.2⟩
  · rw [h.2.1, hacc]
  · rw [h.1, hW]
  · have h5 := h.2.2.2.2.1
    rw [hW] at h5
    exact h5

/-- C2 as literally stated is false: with a negatively weighted item
(the DecimalField admits negative values) the score can exceed the
positive total weight W, refuting 0 ≤ score ≤ W. -/
theorem C2_score_bounds_counterexample :
    (0 : ℚ) <
      totalWeight [⟨"1", "multiple_choice", "a", (3 : ℚ) / 2⟩,
        ⟨"2", "multiple_choice", "b", -((1 : ℚ) / 2)⟩] ∧
    (calculate_results [⟨"1", "multiple_choice", "a", (3 : ℚ) / 2⟩,
        ⟨"2", "multiple_choice", "b", -((1 : ℚ) / 2)⟩] [("1", "a")]).1 = 3 / 2 ∧
    (calculate_results [⟨"1", "multiple_choice", "a", (3 : ℚ) / 2⟩,
        ⟨"2", "multiple_choice", "b", -((1 : ℚ) / 2)⟩] [("1", "a")]).2.1 = 1 ∧
    ¬ ((calculate_results [⟨"1", "multiple_choice", "a", (3 : ℚ) / 2⟩,
        ⟨"2", "multiple_choice", "b", -((1 : ℚ) / 2)⟩] [("1", "a")]).1 ≤
       (calculate_results [⟨"1", "multiple_choice", "a", (3 : ℚ) / 2⟩,
        ⟨"2", "multiple_choice", "b", -((1 : ℚ) / 2)⟩] [("1", "a")]).2.1) := by
  have h1 : itemAccepted [("1", "a")]
      (⟨"1", "multiple_choice", "a", (3 : ℚ) / 2⟩ : PlacementItem) = true := rfl
  have h2 : itemAccepted [("1", "a")]
      (⟨"2", "multiple_choice", "b", -((1 : ℚ) / 2)⟩ : PlacementItem) = false := rfl
  have hacc : acceptedWeight [("1", "a")]
      [⟨"1", "multiple_choice", "a", (3 : ℚ) / 2⟩,
        ⟨"2", "multiple_choice", "b", -((1 : ℚ) / 2)⟩] = 3 / 2 := by
    simp only [acceptedWeight, List.filter_cons, List.filter_nil, h1, h2,
      ite_true, Bool.false_eq_true, ite_false, List.map_cons, List.map_nil,
      List.sum_cons, List.sum_nil, add_zero]
  have htot : totalWeight [⟨"1", "multiple_choice", "a", (3 : ℚ) / 2⟩,
      ⟨"2", "multiple_choice", "b", -((1 : ℚ) / 2)⟩] = 1 := by
    norm_num [totalWeight]
  have hfold := foldl_scoreStep [("1", "a")]
    [⟨"1", "multiple_choice", "a", (3 : ℚ) / 2⟩,
      ⟨"2", "multiple_choice", "b", -((1 : ℚ) / 2)⟩] 0 0
  refine ⟨?_, ?_, ?_, ?_⟩
  · rw [htot]; norm_num
  · simp only [calculate_results, hfold, zero_add, hacc]
  · simp only [calculate_results, hfold, zero_add, htot]
  · simp only [calculate_results, hfold, zero_add, hacc, htot]
    norm_num

/-- The matching-block total of an empty first sequence is zero. -/
theorem matchTotalAux_nil_left :
    ∀ (f : ℕ) (b : List Char), matchTotalAux f [] b = 0 := by
  intro f b
  cases f with
  | zero => rfl
  | succ n => simp [matchTotalAux, longestMatch]

/-- The similarity ratio of the empty string against a non-empty string
is zero. -/
theorem similarity_empty (c : String) (hc : c ≠ "") : similarity "" c = 0 := by
  have hdata : "".data = ([] : List Char) := rfl
  have hne : c.data.length ≠ 0 := by
    intro h
    apply hc
    cases c with
    | mk data =>
      cases data with
      | nil => rfl
      | cons a l => simp at h
  simp only [similarity, hdata, List.length_nil, Nat.zero_add, zero_add,
    matchTotalAux_nil_left]
  rw [if_neg hne]
  norm_num

/-- C3 as literally stated is false: in the task-attempt path an answer
that is empty after normalization is accepted when the correct answer
also normalizes to the empty string, because `_evaluate_answer` has no
empty-answer guard. -/
theorem C3_empty_answer_counterexample :
    pyStrip (pyLower " ") = "" ∧
    evaluate_answer " " " " "multiple_choice" = true := by
  constructor
  · rfl
  · rfl

/-- C3 (amended): an answer empty after normalization always evaluates
to false in the placement path, and evaluates to false in the
task-attempt path whenever the correct answer does not itself
normalize to the empty string under the rule of the kind at hand:
trim and lower-case for multiple_choice and translation, additionally
punctuation removal for fill_blank; unknown kinds evaluate to false
unconditionally. -/
theorem C3_empty_normalized_answer (u c k : String)
    (hu : pyStrip (pyLower u) = "")
    (hc : (k = "multiple_choice" → pyStrip (pyLower c) ≠ "") ∧
      (k = "fill_blank" → removePunct (pyStrip (pyLower c)) ≠ "") ∧
      (k = "translation" → pyStrip (pyLower c) ≠ "")) :
    validate_answer "" c k = false ∧
    evaluate_answer u c k = false := by
  constructor
  · rfl
  · simp only [evaluate_answer, hu]
    split_ifs with h1 h2 h3
    · exact beq_eq_false_iff_ne.mpr (Ne.symm (hc.1 h1))
    · have hre : removePunct "" = "" := rfl
      rw [hre]
      exact beq_eq_false_iff_ne.mpr (Ne.symm (hc.2.1 h2))
    · rw [similarity_empty _ (hc.2.2 h3)]
      exact decide_eq_false (by norm_num)
    · rfl

/-- Concrete check of C3 (amended) on a blank translation answer, and
on a blank multiple_choice answer against an all-punctuation correct
answer, which normalizes non-empty under the multiple_choice rule. -/
theorem C3_empty_normalized_answer_witness :
    (validate_answer "" "a" "translation" = false ∧
      evaluate_answer " " "a" "translation" = false) ∧
    (validate_answer "" "!!!" "multiple_choice" = false ∧
      evaluate_answer " " "!!!" "multiple_choice" = false) :=
  ⟨C3_empty_normalized_answer " " "a" "translation" (by decide)
    ⟨by decide, by decide, by decide⟩,
   C3_empty_normalized_answer " " "!!!" "multiple_choice" (by decide)
    ⟨by decide, by decide, by decide⟩⟩

/-- C4: streak transitions depend only on the day gap between the new
activity date and the last recorded one: first-ever activity sets both
counters to 1; gap 0 changes neither counter but still updates
last_activity_date; gap 1 increments the current streak and raises the
longest streak if exceeded; gap greater than 1 resets the current
streak to 1 and leaves the longest untouched.  The date sequence
D, D, D+1, D+3 from a fresh profile yields current-streak values
1, 1, 2, 1 and longest streak 2. -/
theorem C4_update_streak_rules (p : GamificationProfile) (d : ℤ) :
    (p.last_activity_date = none →
      update_streak p d =
        { p with
          current_streak_days := 1
          longest_streak_days := 1
          last_activity_date := some d }) ∧
    (∀ l, p.last_activity_date = some l →
      (d - l = 0 →
        update_streak p d = { p with last_activity_date := some d }) ∧
      (d - l = 1 →
        update_streak p d =
          { p with
            current_streak_days := p.current_streak_days + 1
            longest_streak_days :=
              if p.longest_streak_days < p.current_streak_days + 1 then
                p.current_streak_days + 1
              else p.longest_streak_days
            last_activity_date := some d }) ∧
      (1 < d - l →
        update_streak p d =
          { p with
            current_streak_days := 1
            last_activity_date := some d })) ∧
    (∀ D xp : ℤ,
      (update_streak ⟨xp, 0, 0, none⟩ D).current_streak_days = 1 ∧
      (update_streak (update_streak ⟨xp, 0, 0, none⟩ D) D).current_streak_days
        = 1 ∧
      (update_streak (update_streak (update_streak ⟨xp, 0, 0, none⟩ D) D)
        (D + 1)).current_streak_days = 2 ∧
      (update_streak (update_streak (update_streak
        (update_streak ⟨xp, 0, 0, none⟩ D) D) (D + 1))
        (D + 3)).current_streak_days = 1 ∧
      (update_streak (update_streak (update_streak
        (update_streak ⟨xp, 0, 0, none⟩ D) D) (D + 1))
        (D + 3)).longest_streak_days = 2) := by
  refine ⟨?_, ?_, ?_⟩
  · intro h
    simp [update_streak, h]
  · intro l hl
    refine ⟨?_, ?_, ?_⟩
    · intro hd
      simp [update_streak, hl, hd]
    · intro hd
      simp [update_streak, hl, hd]
    · intro hd
      have h0 : ¬ (d - l = 0) := by omega
      have h1 : ¬ (d - l = 1) := by omega
      simp [update_streak, hl, h0, h1]
  · intro D xp
    have e1 : D - D = 0 := by ring
    have e2 : D + 1 - D = 1 := by ring
    have e3 : D + 3 - (D + 1) = 2 := by ring
    simp only [update_streak, e1, e2, e3]
    norm_num

/-- Concrete check of C4 from an arbitrary dirty profile and on the
specified date sequence at D = 0. -/
theorem C4_update_streak_rules_witness :
    update_streak ⟨7, 3, 5, none⟩ 4 = ⟨7, 1, 1, some 4⟩ ∧
    (update_streak (update_streak (update_streak
      (update_streak ⟨0, 0, 0, none⟩ 0) 0) 1) 3).current_streak_days = 1 ∧
    (update_streak (update_streak (update_streak
      (update_streak ⟨0, 0, 0, none⟩ 0) 0) 1) 3).longest_streak_days = 2 := by
  have h := C4_update_streak_rules ⟨7, 3, 5, none⟩ 4
  have hs := (C4_update_streak_rules ⟨0, 0, 0, none⟩ 0).2.2 0 0
  exact ⟨h.1 rfl, by simpa using hs.2.2.2.1, by simpa using hs.2.2.2.2⟩

/-- A key present in the criteria object makes its default
irrelevant. -/
theorem critGet_of_lookup (c : List (String × ℚ)) (k : String) (v d : ℚ)
    (h : critLookup c k = some v) : critGet c k d = v := by
  unfold critLookup at h
  unfold critGet
  cases hf : List.find? (fun kv => kv.1 == k) c with
  | none => rw [hf] at h; simp at h
  | some kv =>
    rw [hf] at h
    simp at h
    exact h

/-- C5 as literally stated is false: the evaluator re-checks the
criteria on every call, so after a first evaluation has set the
completion flag, a later call whose statistics have fallen below the
thresholds returns false (here: accuracy drops from 100 to 100/3
against a 50 threshold). -/
theorem C5_idempotence_counterexample :
    check_completion ⟨false, none⟩
      [("accuracy_threshold", (1 : ℚ) / 2), ("min_tasks_completed", 1)]
      ⟨true, 1, 1, 1⟩ 5 = (true, ⟨true, some 5⟩) ∧
    (check_completion ⟨true, some 5⟩
      [("accuracy_threshold", (1 : ℚ) / 2), ("min_tasks_completed", 1)]
      ⟨true, 1, 1, 3⟩ 9).1 = false := by
  have ha : critGet [("accuracy_threshold", (1 : ℚ) / 2),
      ("min_tasks_completed", 1)] "accuracy_threshold" 85 = 1 / 2 := rfl
  have hn : critGet [("accuracy_threshold", (1 : ℚ) / 2),
      ("min_tasks_completed", 1)] "min_tasks_completed" 10 = 1 := rfl
  have hacc1 : module_accuracy ⟨true, 1, 1, 1⟩ = 100 := by
    norm_num [module_accuracy]
  have hacc2 : module_accuracy ⟨true, 1, 1, 3⟩ = 100 / 3 := by
    norm_num [module_accuracy]
  have hne : ([("accuracy_threshold", (1 : ℚ) / 2), ("min_tasks_completed", 1)]
      : List (String × ℚ)) ≠ [] := List.cons_ne_nil _ _
  constructor
  · simp only [check_completion, ha, hn, hacc1]
    rw [if_neg hne]
    norm_num
  · simp only [check_completion, ha, hn, hacc2]
    rw [if_neg hne]
    norm_num

/-- C5 (amended): once the completion flag is set no call changes the
stored module state (flag or timestamp), and a call that returned true
followed by a call with the same statistics still returns true and
leaves the state fixed; but a later call whose statistics no longer
meet the criteria returns false, since the evaluator re-checks the
criteria instead of short-circuiting on the flag. -/
theorem C5_after_completion (m : ModuleState) (crit : List (String × ℚ))
    (st : ModuleStats) (t t2 : ℤ) :
    (m.is_completed = true → (check_completion m crit st t).2 = m) ∧
    ((check_completion m crit st t).1 = true →
      check_completion (check_completion m crit st t).2 crit st t2 =
        (true, (check_completion m crit st t).2)) := by
  constructor
  · intro hm
    simp only [check_completion]
    split_ifs with h1 h2 h3 h4 <;>
      first
        | rfl
        | (rw [hm] at h4; exact absurd h4 (by simp))
  · intro h1
    by_cases hc : crit = []
    · rw [hc] at h1; simp [check_completion] at h1
    by_cases ht : st.has_tasks = false
    · simp [check_completion, hc, ht] at h1
    by_cases hcond : critGet crit "min_tasks_completed" 10 ≤
        (st.completed_tasks : ℚ) ∧
        critGet crit "accuracy_threshold" 85 * 100 ≤ module_accuracy st
    · by_cases hm : m.is_completed = false
      · simp [check_completion, hc, ht, hcond, hm]
      · have hm2 : m.is_completed = true := by
          cases h : m.is_completed
          · exact absurd h hm
          · rfl
        simp [check_completion, hc, ht, hcond, hm2]
    · simp [check_completion, hc, ht, hcond] at h1

/-- Concrete check of C5 (amended) on an already-completed module with
statistics that still meet the criteria. -/
theorem C5_after_completion_witness :
    (check_completion ⟨true, some 3⟩
      [("accuracy_threshold", (1 : ℚ) / 2), ("min_tasks_completed", 1)]
      ⟨true, 1, 1, 1⟩ 7).2 = ⟨true, some 3⟩ ∧
    check_completion
      (check_completion ⟨true, some 3⟩
        [("accuracy_threshold", (1 : ℚ) / 2), ("min_tasks_completed", 1)]
        ⟨true, 1, 1, 1⟩ 7).2
      [("accuracy_threshold", (1 : ℚ) / 2), ("min_tasks_completed", 1)]
      ⟨true, 1, 1, 1⟩ 8 =
      (true,
        (check_completion ⟨true, some 3⟩
          [("accuracy_threshold", (1 : ℚ) / 2), ("min_tasks_completed", 1)]
          ⟨true, 1, 1, 1⟩ 7).2) := by
  have h := C5_after_completion ⟨true, some 3⟩
    [("accuracy_threshold", (1 : ℚ) / 2), ("min_tasks_completed", 1)]
    ⟨true, 1, 1, 1⟩ 7 8
  refine ⟨h.1 rfl, h.2 ?_⟩
  have ha : critGet [("accuracy_threshold", (1 : ℚ) / 2),
      ("min_tasks_completed", 1)] "accuracy_threshold" 85 = 1 / 2 := rfl
  have hn : critGet [("accuracy_threshold", (1 : ℚ) / 2),
      ("min_tasks_completed", 1)] "min_tasks_completed" 10 = 1 := rfl
  have hacc1 : module_accuracy ⟨true, 1, 1, 1⟩ = 100 := by
    norm_num [module_accuracy]
  have hne : ([("accuracy_threshold", (1 : ℚ) / 2), ("min_tasks_completed", 1)]
      : List (String × ℚ)) ≠ [] := List.cons_ne_nil _ _
  simp only [check_completion, ha, hn, hacc1]
  rw [if_neg hne]
  norm_num

/-- C6 as literally stated is false: with criteria demanding zero
completed tasks and zero accuracy, the completion condition of the
claim holds, yet the evaluator returns false for a module that has no
task templates, because of the tasks-exist guard the claim omits. -/
theorem C6_no_tasks_counterexample :
    (check_completion ⟨false, none⟩
      [("accuracy_threshold", (0 : ℚ)), ("min_tasks_completed", (0 : ℚ))]
      ⟨false, 0, 0, 0⟩ 0).1 = false ∧
    critGet [("accuracy_threshold", (0 : ℚ)), ("min_tasks_completed", (0 : ℚ))]
        "min_tasks_completed" 10 ≤
      ((⟨false, 0, 0, 0⟩ : ModuleStats).completed_tasks : ℚ) ∧
    critGet [("accuracy_threshold", (0 : ℚ)), ("min_tasks_completed", (0 : ℚ))]
        "accuracy_threshold" 85 * 100 ≤
      module_accuracy ⟨false, 0, 0, 0⟩ := by
  have h1 : critGet [("accuracy_threshold", (0 : ℚ)),
      ("min_tasks_completed", (0 : ℚ))] "min_tasks_completed" 10 = 0 := rfl
  have h2 : critGet [("accuracy_threshold", (0 : ℚ)),
      ("min_tasks_completed", (0 : ℚ))] "accuracy_threshold" 85 = 0 := rfl
  refine ⟨by simp [check_completion], ?_, ?_⟩
  · rw [h1]; norm_num
  · rw [h2]; norm_num [module_accuracy]

/-- C6 (amended: the module must also have at least one task template):
empty criteria always yield false; with criteria containing
accuracy_threshold a and min_tasks_completed n, the evaluator returns
true iff the module has tasks, the completed-task count is at least n,
and the accuracy is at least a * 100, where the accuracy is
correct / total * 100 for a positive total attempt count and 0
otherwise. -/
theorem C6_check_completion_criteria (m : ModuleState)
    (crit : List (String × ℚ)) (st : ModuleStats) (now : ℤ) (a n : ℚ)
    (ha : critLookup crit "accuracy_threshold" = some a)
    (hn : critLookup crit "min_tasks_completed" = some n) :
    (check_completion m [] st now).1 = false ∧
    ((check_completion m crit st now).1 = true ↔
      st.has_tasks = true ∧ n ≤ (st.completed_tasks : ℚ) ∧
        a * 100 ≤ module_accuracy st) ∧
    (0 < st.total_attempts →
      module_accuracy st =
        (st.correct_count : ℚ) / (st.total_attempts : ℚ) * 100) ∧
    (st.total_attempts = 0 → module_accuracy st = 0) := by
  have hga := critGet_of_lookup crit "accuracy_threshold" a 85 ha
  have hgn := critGet_of_lookup crit "min_tasks_completed" n 10 hn
  have hcrit : crit ≠ [] := by
    intro h
    rw [h] at ha
    simp [critLookup] at ha
  refine ⟨by simp [check_completion], ?_, ?_, ?_⟩
  · simp only [check_completion, hga, hgn]
    rw [if_neg hcrit]
    split_ifs with h2 h3 h4 <;> simp_all
  · intro h; simp [module_accuracy, h]
  · intro h; simp [module_accuracy, h]

/-- Concrete check of C6 (amended) on a module meeting an 85 percent
threshold with 9 of 10 attempts correct. -/
theorem C6_check_completion_criteria_witness :
    (check_completion ⟨false, none⟩
      [("accuracy_threshold", (17 : ℚ) / 20), ("min_tasks_completed", 10)]
      ⟨true, 10, 9, 10⟩ 1).1 = true ∧
    (check_completion ⟨false, none⟩ [] ⟨true, 10, 9, 10⟩ 1).1 = false := by
  have h := C6_check_completion_criteria ⟨false, none⟩
    [("accuracy_threshold", (17 : ℚ) / 20), ("min_tasks_completed", 10)]
    ⟨true, 10, 9, 10⟩ 1 ((17 : ℚ) / 20) 10 rfl rfl
  refine ⟨h.2.1.mpr ⟨rfl, by norm_num, ?_⟩, h.1⟩
  norm_num [module_accuracy]

/-- Saving never changes the correctness flag of the attempt. -/
theorem TaskAttempt_save_is_correct (d : ℤ) (s : AttemptCtx) :
    (TaskAttempt_save d s).attempt.is_correct = s.attempt.is_correct := by
  simp only [TaskAttempt_save]
  split_ifs <;> rfl

/-- A second save leaves xp_gained at the value the first save
settled. -/
theorem TaskAttempt_save_xp_idem (d : ℤ) (s : AttemptCtx) :
    (TaskAttempt_save d (TaskAttempt_save d s)).attempt.xp_gained =
      (TaskAttempt_save d s).attempt.xp_gained := by
  simp only [TaskAttempt_save]
  split_ifs <;> simp_all

/-- C7: XP on an attempt is computed at most once: starting from the
creation default xp_gained = 0, the first save sets it to 10 times the
templates difficulty level when the attempt is correct and leaves 0
otherwise, and re-saving the same attempt never changes the settled
xp_gained value. -/
theorem C7_xp_computed_once (d : ℤ) (s : AttemptCtx) :
    (s.attempt.xp_gained = 0 →
      (TaskAttempt_save d s).attempt.xp_gained =
        (if s.attempt.is_correct = true then 10 * d else 0)) ∧
    (TaskAttempt_save d (TaskAttempt_save d s)).attempt.xp_gained =
      (TaskAttempt_save d s).attempt.xp_gained := by
  constructor
  · intro h0
    simp only [TaskAttempt_save]
    split_ifs with h1 h2 <;> simp_all
  · exact TaskAttempt_save_xp_idem d s

/-- Concrete check of C7: a fresh correct attempt on a difficulty-3
task earns 30 XP, and a repeat save keeps it at 30. -/
theorem C7_xp_computed_once_witness :
    (TaskAttempt_save 3
      ⟨⟨true, 0⟩, ⟨"in_progress", 0, false⟩, ⟨0, 0, 0, none⟩⟩).attempt.xp_gained
      = 30 ∧
    (TaskAttempt_save 3 (TaskAttempt_save 3
      ⟨⟨true, 0⟩, ⟨"in_progress", 0, false⟩,
        ⟨0, 0, 0, none⟩⟩)).attempt.xp_gained = 30 := by
  have h := C7_xp_computed_once 3
    ⟨⟨true, 0⟩, ⟨"in_progress", 0, false⟩, ⟨0, 0, 0, none⟩⟩
  have h1 : (TaskAttempt_save 3
      ⟨⟨true, 0⟩, ⟨"in_progress", 0, false⟩, ⟨0, 0, 0, none⟩⟩).attempt.xp_gained
      = 30 := by
    rw [h.1 rfl]
    norm_num
  exact ⟨h1, by rw [h.2, h1]⟩

/-- Iterating save on a correct attempt with settled XP adds the
attempts XP to the profile at every step, increments the attempt
counter every step, keeps the attempt record fixed and keeps the
instance status at completed. -/
theorem saveIter_correct (d : ℤ) :
    ∀ (n : ℕ) (t : AttemptCtx),
      t.attempt.is_correct = true →
      (TaskAttempt_save d t).attempt.xp_gained = t.attempt.xp_gained →
      (saveIter d n t).profile.total_xp =
        t.profile.total_xp + n * t.attempt.xp_gained ∧
      (saveIter d n t).inst.attempts_count = t.inst.attempts_count + n ∧
      (saveIter d n t).attempt = t.attempt ∧
      (t.inst.status = "completed" →
        (saveIter d n t).inst.status = "completed") := by
  intro n
  induction n with
  | zero =>
    intro t hc hstable
    simp [saveIter]
  | succ k ih =>
    intro t hc hstable
    have hsc : (TaskAttempt_save d t).attempt.is_correct = true := by
      rw [TaskAttempt_save_is_correct]; exact hc
    have hss : (TaskAttempt_save d (TaskAttempt_save d t)).attempt.xp_gained =
        (TaskAttempt_save d t).attempt.xp_gained :=
      TaskAttempt_save_xp_idem d t
    have hattempt : (TaskAttempt_save d t).attempt = t.attempt := by
      have h1 := TaskAttempt_save_is_correct d t
      cases ha : (TaskAttempt_save d t).attempt with
      | mk ic xp =>
      cases hb : t.attempt with
      | mk ic2 xp2 =>
        rw [ha, hb] at h1 hstable
        simp at h1 hstable
        rw [h1, hstable]
    have hprof : (TaskAttempt_save d t).profile.total_xp =
        t.profile.total_xp + t.attempt.xp_gained := by
      rw [← hstable]
      simp only [TaskAttempt_save]
      split_ifs with h1 <;> simp_all
    have hcount : (TaskAttempt_save d t).inst.attempts_count =
        t.inst.attempts_count + 1 := by
      simp only [TaskAttempt_save]
      split_ifs <;> rfl
    have hstatus : (TaskAttempt_save d t).inst.status = "completed" := by
      simp only [TaskAttempt_save]
      split_ifs with h1 <;> simp_all [TaskAttempt_save_is_correct]
    have step := ih (TaskAttempt_save d t) hsc hss
    refine ⟨?_, ?_, ?_, ?_⟩
    · show (saveIter d k (TaskAttempt_save d t)).profile.total_xp = _
      rw [step.1, hprof, hattempt]
      push_cast
      ring
    · show (saveIter d k (TaskAttempt_save d t)).inst.attempts_count = _
      rw [step.2.1, hcount]
      push_cast
      ring
    · show (saveIter d k (TaskAttempt_save d t)).attempt = _
      rw [step.2.2.1, hattempt]
    · intro _
      show (saveIter d k (TaskAttempt_save d t)).inst.status = _
      exact step.2.2.2 hstatus

/-- C10: every call to TaskAttempt.save re-runs its side effects: it
increments the owning instances attempts_count by exactly 1, rewrites
the instances status to completed for a correct attempt and
in_progress otherwise, and for a correct attempt adds the attempts
xp_gained to the profiles total XP again; saving a correct attempt
n + 1 times in total adds (n + 1) times its settled xp_gained to the
total XP and n + 1 to the attempt counter. -/
theorem C10_save_side_effects (d : ℤ) (s : AttemptCtx) (n : ℕ) :
    (TaskAttempt_save d s).inst.attempts_count = s.inst.attempts_count + 1 ∧
    (TaskAttempt_save d s).inst.status =
      (if s.attempt.is_correct = true then "completed" else "in_progress") ∧
    (TaskAttempt_save d s).profile.total_xp =
      s.profile.total_xp +
        (if s.attempt.is_correct = true then
          (TaskAttempt_save d s).attempt.xp_gained
        else 0) ∧
    (s.attempt.is_correct = true →
      (saveIter d n (TaskAttempt_save d s)).profile.total_xp =
        s.profile.total_xp +
          ((n : ℤ) + 1) * (TaskAttempt_save d s).attempt.xp_gained ∧
      (saveIter d n (TaskAttempt_save d s)).inst.attempts_count =
        s.inst.attempts_count + ((n : ℤ) + 1) ∧
      (saveIter d n (TaskAttempt_save d s)).inst.status = "completed") := by
  have hcount : (TaskAttempt_save d s).inst.attempts_count =
      s.inst.attempts_count + 1 := by
    simp only [TaskAttempt_save]
    split_ifs <;> rfl
  have hstatus : (TaskAttempt_save d s).inst.status =
      (if s.attempt.is_correct = true then "completed" else "in_progress") := by
    simp only [TaskAttempt_save]
    split_ifs with h1 h2 <;> simp_all
  have hxp : (TaskAttempt_save d s).profile.total_xp =
      s.profile.total_xp +
        (if s.attempt.is_correct = true then
          (TaskAttempt_save d s).attempt.xp_gained
        else 0) := by
    by_cases hc : s.attempt.is_correct = true
    · rw [if_pos hc]
      simp only [TaskAttempt_save]
      split_ifs <;> simp_all
    · rw [if_neg hc]
      simp only [TaskAttempt_save]
      split_ifs <;> simp_all
  refine ⟨hcount, hstatus, hxp, ?_⟩
  intro hc
  have hsc : (TaskAttempt_save d s).attempt.is_correct = true := by
    rw [TaskAttempt_save_is_correct]; exact hc
  have hiter := saveIter_correct d n (TaskAttempt_save d s) hsc
    (TaskAttempt_save_xp_idem d s)
  have hxp2 : (TaskAttempt_save d s).profile.total_xp =
      s.profile.total_xp + (TaskAttempt_save d s).attempt.xp_gained := by
    rw [hxp, if_pos hc]
  refine ⟨?_, ?_, ?_⟩
  · rw [hiter.1, hxp2]
    ring
  · rw [hiter.2.1, hcount]
    ring
  · refine hiter.2.2.2 ?_
    rw [hstatus, if_pos hc]

/-- Concrete check of C10: saving a fresh correct difficulty-2 attempt
four times in total yields 80 total XP and an attempt count of 4. -/
theorem C10_save_side_effects_witness :
    (saveIter 2 3 (TaskAttempt_save 2
      ⟨⟨true, 0⟩, ⟨"in_progress", 0, false⟩,
        ⟨0, 0, 0, none⟩⟩)).profile.total_xp = 80 ∧
    (saveIter 2 3 (TaskAttempt_save 2
      ⟨⟨true, 0⟩, ⟨"in_progress", 0, false⟩,
        ⟨0, 0, 0, none⟩⟩)).inst.attempts_count = 4 ∧
    (TaskAttempt_save 2
      ⟨⟨true, 0⟩, ⟨"in_progress", 0, false⟩,
        ⟨0, 0, 0, none⟩⟩).attempt.xp_gained = 20 := by
  have h := C10_save_side_effects 2
    ⟨⟨true, 0⟩, ⟨"in_progress", 0, false⟩, ⟨0, 0, 0, none⟩⟩ 3
  have hv : (TaskAttempt_save 2
      ⟨⟨true, 0⟩, ⟨"in_progress", 0, false⟩,
        ⟨0, 0, 0, none⟩⟩).attempt.xp_gained = 20 := by
    simp [TaskAttempt_save]
  have hs := h.2.2.2 rfl
  refine ⟨?_, ?_, hv⟩
  · rw [hs.1, hv]
    norm_num
  · rw [hs.2.1]
    norm_num

/-- C8: creating a placement result overwrites the submitting users
stored CEFR level with the estimated band iff the users target
language equals the tests language; when the languages differ the
profile is unchanged, and in either case no other profile field is
modified. -/
theorem C8_profile_side_effect (r : PlacementTestResultRec)
    (p : UserProfileState) :
    ((PlacementTestResult_save r p).2.current_cefr_level =
      (if p.target_language = r.test_language then r.estimated_cefr_level
       else p.current_cefr_level)) ∧
    (p.target_language ≠ r.test_language →
      (PlacementTestResult_save r p).2 = p) ∧
    (PlacementTestResult_save r p).2.target_language = p.target_language ∧
    (PlacementTestResult_save r p).2.native_language = p.native_language ∧
    (PlacementTestResult_save r p).2.learning_preferences =
      p.learning_preferences := by
  have hlang : (if 0 < r.max_score then
      { r with percentage := r.score / r.max_score * 100 }
      else r).test_language = r.test_language := by
    split_ifs <;> rfl
  have hest : (if 0 < r.max_score then
      { r with percentage := r.score / r.max_score * 100 }
      else r).estimated_cefr_level = r.estimated_cefr_level := by
    split_ifs <;> rfl
  simp only [PlacementTestResult_save, hlang, hest]
  split_ifs with h <;> simp_all

/-- Concrete check of C8 in the matching-language case. -/
theorem C8_profile_side_effect_witness :
    (PlacementTestResult_save ⟨"english", 1, 2, 0, Cefr.B1⟩
      ⟨"english", "russian", Cefr.A0, []⟩).2.current_cefr_level = Cefr.B1 ∧
    (PlacementTestResult_save ⟨"spanish", 1, 2, 0, Cefr.B1⟩
      ⟨"english", "russian", Cefr.A0, []⟩).2 =
      ⟨"english", "russian", Cefr.A0, []⟩ := by
  have h1 := C8_profile_side_effect ⟨"english", 1, 2, 0, Cefr.B1⟩
    ⟨"english", "russian", Cefr.A0, []⟩
  have h2 := C8_profile_side_effect ⟨"spanish", 1, 2, 0, Cefr.B1⟩
    ⟨"english", "russian", Cefr.A0, []⟩
  refine ⟨?_, h2.2.1 (by decide)⟩
  rw [h1.1]
  rfl

/-- C9: evaluation of the AI gateway at the failing input.  The
underlying call succeeds with the text "5", which is valid JSON for
the number 5; with a required-keys schema supplied, the membership
test of `_validate_schema` is applied to a non-dict value and the
resulting TypeError escapes `generate_json` (only json.JSONDecodeError
is caught), instead of the null return the claim describes. -/
theorem C9_generate_json_type_error :
    generate_json true false none (Except.ok "5")
      (fun s => if s = "5" then some (Json.num 5) else none)
      (some ["modules"]) = Except.error PyErr.typeError := by
  rfl
